import Mathlib

/-!
# Verification of the qingsongpiano audio core

Shallow embedding of the audio playback subsystem of the repository
(a browser virtual piano): the playback debounce/dispatch controller
(`AudioPlaybackController.playNote`), the active-source registry with its
oldest-first eviction policy (`AudioPlayer.stopOldestSource`,
`AudioPlayer.stopNote`), the oscillator engine with its ADSR envelope
(`Oscillator.playNote`, `Oscillator.applyADSREnvelope`,
`Oscillator.getFrequencyForNote`, sustained notes), the audio-scheme switch
(`AudioManager.switchAudioScheme`) and the Service Worker fetch handler
(`sw.js`).

JavaScript numbers are modelled with `Int` (millisecond timestamps) and `ℚ`
(audio-clock seconds, gains, frequencies); arithmetic is exact.  Maps keyed
by strings are modelled as association lists in insertion order, which is
the iteration order of a JavaScript `Map` and of plain-object keys as used
by the source.
-/

/-- `AUDIO_CONFIG` from `js/audio-config.js`: the playback configuration
constants used by the controller. -/
structure AudioConfigT where
  fadeDuration : ℚ
  minPlayInterval : Int
  maxConcurrent : Nat
  debounceTime : Int
  defaultVolume : ℚ

/-- The literal `AUDIO_CONFIG` object from `js/audio-config.js`. -/
def AUDIO_CONFIG : AudioConfigT :=
  { fadeDuration := 2/100
    minPlayInterval := 35
    maxConcurrent := 40
    debounceTime := 150
    defaultVolume := 7/10 }

/-- One entry of `AudioPlayer.activeSources` as registered by
`playNoteWithAudioFile` in `src/unnamed/part_003`: the stored record is
`{source, noteName, startTime: Date.now(), type: 'htmlAudio'}`.  The
JavaScript source id string `noteName_Date.now()` is replaced by a `Nat`
drawn from a fresh counter (ids only need to identify registry entries). -/
structure SourceInfo where
  id : Nat
  noteName : String
  startTime : Int
  deriving DecidableEq, Repr

/-- State of `AudioPlaybackController` (from `src/unnamed/part_004`)
together with the `AudioPlayer.activeSources` registry it drives
(`src/unnamed/part_003`).  `lastPlayTimes` is the controller's per-note
last-trigger map, with 0 for an absent key exactly as in
`this.lastPlayTimes[noteName] || 0`.  `mapped` models whether
`notesMap[noteName]` resolves in `playNoteWithAudioFile` (an unmapped note
returns null and registers nothing). -/
structure ControllerState where
  lastPlayTimes : String → Int
  activeSources : List SourceInfo
  nextId : Nat
  maxConcurrent : Nat
  debounceTime : Int
  mapped : String → Bool

/-- The controller as constructed in `src/unnamed/part_004`:
`maxConcurrent` and `debounceTime` are taken from `AUDIO_CONFIG`, the
last-trigger map and registry start empty.  `mapped` is a parameter (it is
the current scheme's `notesMap` domain). -/
def initController (mapped : String → Bool) : ControllerState :=
  { lastPlayTimes := fun _ => 0
    activeSources := []
    nextId := 0
    maxConcurrent := AUDIO_CONFIG.maxConcurrent
    debounceTime := AUDIO_CONFIG.debounceTime
    mapped := mapped }

/-- The fold inside `AudioPlayer.stopOldestSource`: scan the registry in
iteration order keeping the first entry whose `startTime` is strictly
smaller than the best so far (`if (sourceInfo.startTime < oldestTime)`). -/
def oldestSource (sources : List SourceInfo) : Option SourceInfo :=
  sources.foldl
    (fun acc s =>
      match acc with
      | none => some s
      | some b => if s.startTime < b.startTime then some s else some b)
    none

/-- `AudioPlayer.stopOldestSource` (`src/unnamed/part_003` lines 718-734):
if the registry is nonempty, `cleanupSource` the entry found by the scan
(`Map.delete` of its id, modelled as erasing the first entry with that
id). -/
def stopOldestSource (sources : List SourceInfo) : List SourceInfo :=
  match oldestSource sources with
  | none => sources
  | some m => sources.eraseP (fun s => s.id == m.id)

/-- `AudioPlayer.stopNote` (`src/unnamed/part_003` lines 672-703) for
`htmlAudio` entries: the stored source info of `playNoteWithAudioFile`
carries no `gainNode`, so every matching entry takes the immediate
`cleanupSource` branch and is removed from the registry synchronously. -/
def stopNoteSources (noteName : String) (sources : List SourceInfo) :
    List SourceInfo :=
  sources.filter (fun s => s.noteName != noteName)

/-- `AudioPlaybackController.playNote` (`src/unnamed/part_004` lines
303-347) dispatching to `AudioPlayer.playNoteWithAudioFile` (the
`'audioFile'` default): debounce gate, oldest-eviction when the registry
has reached `maxConcurrent`, stop of same-note sources, last-trigger
update, then registration of the new instance (or a null return without
registration when the note has no mapping). -/
def playNote (noteName : String) (now : Int) (s : ControllerState) :
    Option Nat × ControllerState :=
  let lastPlayTime := s.lastPlayTimes noteName
  if lastPlayTime ≠ 0 ∧ now - lastPlayTime < s.debounceTime then
    (none, s)
  else
    let sources1 :=
      if s.maxConcurrent ≤ s.activeSources.length then
        stopOldestSource s.activeSources
      else s.activeSources
    let sources2 := stopNoteSources noteName sources1
    let s1 : ControllerState :=
      { s with
        lastPlayTimes := fun n =>
          if n = noteName then now else s.lastPlayTimes n
        activeSources := sources2 }
    if s.mapped noteName then
      (some s.nextId,
        { s1 with
          activeSources := sources2 ++ [⟨s.nextId, noteName, now⟩]
          nextId := s.nextId + 1 })
    else
      (none, s1)

/-- Run a sequence of `playNote` calls, each given as (note, timestamp). -/
def runCalls (s : ControllerState) : List (String × Int) → ControllerState
  | [] => s
  | (note, t) :: rest => runCalls (playNote note t s).2 rest

/-- Number of registry entries tagged with a given note. -/
def countNote (noteName : String) (sources : List SourceInfo) : Nat :=
  (sources.filter (fun s => s.noteName == noteName)).length

/-- Waveform type of the oscillator (`options.type` in
`src/unnamed/part_001`). -/
inductive Wave
  | sine
  | square
  | triangle
  | sawtooth
  deriving DecidableEq, Repr

/-- Pitch mode (`this.currentPitch` of `Oscillator`). -/
inductive Pitch
  | low
  | medium
  | high
  deriving DecidableEq, Repr

/-- `Oscillator` options (`this.options` in `src/unnamed/part_001`).
Numbers are exact rationals. -/
structure OscOptions where
  waveType : Wave
  volume : ℚ
  duration : ℚ
  attack : ℚ
  decay : ℚ
  sustain : ℚ
  release : ℚ
  deriving DecidableEq, Repr

/-- The clamping done by the `Oscillator` constructor:
volume and sustain into [0,1], duration at least 0.1, the envelope times
nonnegative. -/
def mkOscOptions (waveType : Wave) (volume duration attack decay sustain release : ℚ) :
    OscOptions :=
  { waveType := waveType
    volume := max 0 (min 1 volume)
    duration := max (1/10) duration
    attack := max 0 attack
    decay := max 0 decay
    sustain := max 0 (min 1 sustain)
    release := max 0 release }

/-- `NOTE_FREQUENCIES` from `js/audio-config.js` (exact decimal values). -/
def NOTE_FREQUENCIES : List ℚ :=
  [26163/100, 27718/100, 29366/100, 31113/100, 32963/100, 34923/100,
   36999/100, 39200/100, 41530/100, 44000/100, 46616/100, 49388/100,
   52325/100, 55437/100, 58733/100, 62225/100, 65925/100, 69846/100,
   73999/100]

/-- Numeric value of a leading run of decimal digits; `none` when the run
is empty (`parseInt` then yields `NaN`). -/
def parseDigits (cs : List Char) : Option Nat :=
  let ds := cs.takeWhile Char.isDigit
  if ds.isEmpty then none
  else some (ds.foldl (fun acc c => acc * 10 + (c.toNat - 48)) 0)

/-- JavaScript `parseInt(str)` restricted to what the audio code feeds it:
an optional sign followed by a longest digit run; `none` models `NaN`. -/
def jsParseInt (str : String) : Option Int :=
  match str.data with
  | '-' :: rest => (parseDigits rest).map (fun n => -(n : Int))
  | '+' :: rest => (parseDigits rest).map (fun n => (n : Int))
  | cs => (parseDigits cs).map (fun n => (n : Int))

/-- Pitch multiplier of `getFrequencyForNote`: the `switch` on
`this.currentPitch` (low halves, high doubles, medium keeps). -/
def pitchMultiplier : Pitch → ℚ
  | Pitch.low => 1/2
  | Pitch.medium => 1
  | Pitch.high => 2

/-- The one-semitone-up correction `frequency *= Math.pow(2, 1/12)` applied
to sine and triangle waveforms; `s` stands for the positive real number
`2^(1/12)`, carried as an abstract rational parameter since it is
irrational (every claim about frequencies only uses `0 < s`). -/
def semitoneCorrection (waveType : Wave) (s : ℚ) : ℚ :=
  if waveType = Wave.sine ∨ waveType = Wave.triangle then s else 1

/-- The exact real value of `Math.pow(2, k/12)` for an integer `k`,
written with the exponent split as `k = 12*(k.fdiv 12) + k.emod 12`: it
equals `2^(k.fdiv 12) * s^(k.emod 12)` where `s` denotes `2^(1/12)`.
This is an idealization: the source computes in IEEE doubles, which
saturate outside the double range (`Math.pow(2, k/12)` underflows to
exactly 0 for very large negative `k` and overflows to `Infinity` for
very large positive `k`); that saturation is not modelled here, so only
properties insensitive to it may be read off this definition. -/
def pow2Frac (s : ℚ) (k : Int) : ℚ :=
  (2 : ℚ) ^ (k.fdiv 12) * s ^ (k.emod 12).toNat

/-- `Oscillator.getFrequencyForNote` (`src/unnamed/part_001` lines 233-296)
with `window.AudioConfig.NOTE_FREQUENCIES` present (as in this app):
`noteIndex = parseInt(noteName) - 1`; indices inside the table use the
table value, all other parsed indices use the fallback
`baseFreq * Math.pow(2, noteIndex/12)` with `baseFreq = 261.63` (the pitch
multiplier applies in both branches, the semitone correction for
sine/triangle last).  A `NaN` parse propagates to a `NaN` frequency,
modelled as `none`. -/
def getFrequencyForNote (pitch : Pitch) (waveType : Wave) (s : ℚ)
    (noteName : String) : Option ℚ :=
  match jsParseInt noteName with
  | none => none
  | some n =>
    let noteIndex : Int := n - 1
    if 0 ≤ noteIndex ∧ noteIndex < (NOTE_FREQUENCIES.length : Int) then
      some (NOTE_FREQUENCIES.getD noteIndex.toNat 0 * pitchMultiplier pitch
        * semitoneCorrection waveType s)
    else
      some (26163/100 * pitchMultiplier pitch * pow2Frac s noteIndex
        * semitoneCorrection waveType s)

/-- One Web Audio `AudioParam` scheduling call issued against the gain of a
voice. -/
inductive EnvCmd
  | setValueAtTime (value : ℚ) (time : ℚ)
  | linearRampToValueAtTime (value : ℚ) (time : ℚ)
  | exponentialRampToValueAtTime (value : ℚ) (time : ℚ)
  deriving DecidableEq, Repr

/-- `Oscillator.applyADSREnvelope` (`src/unnamed/part_001` lines 205-226):
the exact sequence of scheduling calls issued against `gainNode.gain`,
in order. -/
def applyADSREnvelope (now peakVolume : ℚ) (o : OscOptions) : List EnvCmd :=
  [EnvCmd.setValueAtTime 0 now,
   EnvCmd.linearRampToValueAtTime peakVolume (now + o.attack),
   EnvCmd.exponentialRampToValueAtTime (peakVolume * o.sustain)
     (now + o.attack + o.decay),
   EnvCmd.setValueAtTime (peakVolume * o.sustain)
     (now + o.duration - o.release),
   EnvCmd.exponentialRampToValueAtTime (1/1000) (now + o.duration)]

/-- The observable effect of a successful non-sustain
`Oscillator.playNote`: resolved frequency, the gain envelope schedule, and
the oscillator start/stop times. -/
structure OscPlayResult where
  frequency : ℚ
  envelope : List EnvCmd
  startTime : ℚ
  stopTime : ℚ
  deriving DecidableEq, Repr

/-- `Oscillator.playNote` (`src/unnamed/part_001` lines 52-107), non-sustain
path: resolve the frequency (a falsy frequency — `NaN` from an unparsable
name, or 0 — returns null), apply the ADSR envelope at peak
`velocity * options.volume`, start the oscillator at `t0` and stop it at
`t0 + options.duration`. -/
def oscPlayNote (pitch : Pitch) (s : ℚ) (o : OscOptions) (noteName : String)
    (velocity : ℚ) (t0 : ℚ) : Option OscPlayResult :=
  match getFrequencyForNote pitch o.waveType s noteName with
  | none => none
  | some f =>
    if f = 0 then none
    else
      some { frequency := f
             envelope := applyADSREnvelope t0 (velocity * o.volume) o
             startTime := t0
             stopTime := t0 + o.duration }

/-- An entry of `Oscillator.activeSustainedNotes`
(`src/unnamed/part_001`): the stored instance id (in the source the string
`sustain_noteName_Date.now()`, modelled by the `Date.now()` timestamp) and
the scheduling calls issued against the voice's gain. -/
structure SustainEntry where
  id : Int
  envelope : List EnvCmd
  deriving DecidableEq, Repr

/-- `Oscillator.playSustainedNote` (`src/unnamed/part_001` lines 116-158):
if the note is already in `activeSustainedNotes`, return the existing
entry's id and leave the table alone; otherwise resolve the frequency
(falsy frequency returns null and leaves the table alone), start a voice
at the constant gain `velocity * options.volume`
(`gainNode.gain.setValueAtTime(velocity * options.volume, currentTime)` —
the only scheduling call, no envelope) and register it under the note
(`Map.set` appends a new key in insertion order). -/
def playSustainedNote (pitch : Pitch) (s : ℚ) (o : OscOptions)
    (noteName : String) (velocity : ℚ) (now : Int) (ctxTime : ℚ)
    (table : List (String × SustainEntry)) :
    Option Int × List (String × SustainEntry) :=
  match table.lookup noteName with
  | some info => (some info.id, table)
  | none =>
    match getFrequencyForNote pitch o.waveType s noteName with
    | none => (none, table)
    | some f =>
      if f = 0 then (none, table)
      else
        (some now,
         table ++ [(noteName,
           { id := now
             envelope := [EnvCmd.setValueAtTime (velocity * o.volume) ctxTime] })])

/-- What `Oscillator.stopSustainedNote` schedules when it finds the note:
the exponential fade to the floor 0.001 ending `releaseTime` seconds after
the current audio-clock time, and the delayed oscillator stop/disconnect
`releaseTime * 1000` milliseconds later (`releaseTime` is
`this.options.duration`). -/
structure FadeStop where
  fadeFloor : ℚ
  fadeEnd : ℚ
  stopDelayMs : ℚ
  deriving DecidableEq, Repr

/-- `Oscillator.stopSustainedNote` (`src/unnamed/part_001` lines 164-197):
a note absent from `activeSustainedNotes` returns immediately with no
effect (`if (!noteInfo) return`); otherwise the fade and delayed stop are
scheduled and the entry is deleted from the table. -/
def stopSustainedNote (o : OscOptions) (ctxTime : ℚ) (noteName : String)
    (table : List (String × SustainEntry)) :
    List (String × SustainEntry) × Option FadeStop :=
  match table.lookup noteName with
  | none => (table, none)
  | some _ =>
    (table.eraseP (fun entry => entry.1 == noteName),
     some { fadeFloor := 1/1000
            fadeEnd := ctxTime + o.duration
            stopDelayMs := o.duration * 1000 })

/-- A sample descriptor of a scheme's `notesMap`
(`{file, start, duration}`). -/
structure SampleDef where
  file : String
  start : ℚ
  duration : ℚ
  deriving DecidableEq, Repr

/-- The `'popular'` scheme's `notesMap` from
`AudioManager.switchAudioScheme` (`js/audio.js` constructor and
`src/unnamed/part_003` lines 465-487). -/
def popularNotesMap : List (String × SampleDef) :=
  [("1", ⟨"/audio/f4-b5/a01.mp3", 0, 3/2⟩), ("2", ⟨"/audio/f4-b5/a02.mp3", 0, 3/2⟩),
   ("3", ⟨"/audio/f4-b5/a03.mp3", 0, 3/2⟩), ("4", ⟨"/audio/f4-b5/a04.mp3", 0, 3/2⟩),
   ("5", ⟨"/audio/f4-b5/a05.mp3", 0, 3/2⟩), ("6", ⟨"/audio/f4-b5/a06.mp3", 0, 3/2⟩),
   ("7", ⟨"/audio/f4-b5/a07.mp3", 0, 3/2⟩), ("8", ⟨"/audio/f4-b5/a08.mp3", 0, 3/2⟩),
   ("9", ⟨"/audio/f4-b5/a09.mp3", 0, 3/2⟩), ("10", ⟨"/audio/f4-b5/a10.mp3", 0, 3/2⟩),
   ("11", ⟨"/audio/f4-b5/a11.mp3", 0, 3/2⟩), ("12", ⟨"/audio/f4-b5/a12.mp3", 0, 3/2⟩),
   ("13", ⟨"/audio/f4-b5/a13.mp3", 0, 3/2⟩), ("14", ⟨"/audio/f4-b5/a14.mp3", 0, 3/2⟩),
   ("15", ⟨"/audio/f4-b5/a15.mp3", 0, 3/2⟩), ("16", ⟨"/audio/f4-b5/a16.mp3", 0, 3/2⟩),
   ("17", ⟨"/audio/f4-b5/a17.mp3", 0, 3/2⟩), ("18", ⟨"/audio/f4-b5/a18.mp3", 0, 3/2⟩),
   ("19", ⟨"/audio/f4-b5/a19.mp3", 0, 3/2⟩)]

/-- The `'golden'` scheme's `notesMap` from `AudioManager.switchAudioScheme`
(`js/audio.js` constructor and `src/unnamed/part_003` lines 489-511). -/
def goldenNotesMap : List (String × SampleDef) :=
  [("1", ⟨"/audio/f4-b5/b01.mp3", 0, 3/2⟩), ("2", ⟨"/audio/f4-b5/b02.mp3", 0, 3/2⟩),
   ("3", ⟨"/audio/f4-b5/b03.mp3", 0, 3/2⟩), ("4", ⟨"/audio/f4-b5/a01.mp3", 0, 3/2⟩),
   ("5", ⟨"/audio/f4-b5/a02.mp3", 0, 3/2⟩), ("6", ⟨"/audio/f4-b5/a03.mp3", 0, 3/2⟩),
   ("7", ⟨"/audio/f4-b5/a04.mp3", 0, 3/2⟩), ("8", ⟨"/audio/f4-b5/a05.mp3", 0, 3/2⟩),
   ("9", ⟨"/audio/f4-b5/a06.mp3", 0, 3/2⟩), ("10", ⟨"/audio/f4-b5/a07.mp3", 0, 3/2⟩),
   ("11", ⟨"/audio/f4-b5/a08.mp3", 0, 3/2⟩), ("12", ⟨"/audio/f4-b5/a09.mp3", 0, 3/2⟩),
   ("13", ⟨"/audio/f4-b5/a10.mp3", 0, 3/2⟩), ("14", ⟨"/audio/f4-b5/a11.mp3", 0, 3/2⟩),
   ("15", ⟨"/audio/f4-b5/a12.mp3", 0, 3/2⟩), ("16", ⟨"/audio/f4-b5/a13.mp3", 0, 3/2⟩),
   ("17", ⟨"/audio/f4-b5/a14.mp3", 0, 3/2⟩), ("18", ⟨"/audio/f4-b5/a15.mp3", 0, 3/2⟩),
   ("19", ⟨"/audio/f4-b5/a16.mp3", 0, 3/2⟩)]

/-- The `audioSchemes` lookup: the object literal has exactly the keys
`'popular'` and `'golden'`. -/
def lookupScheme (schemeId : String) : Option (List (String × SampleDef)) :=
  if schemeId = "popular" then some popularNotesMap
  else if schemeId = "golden" then some goldenNotesMap
  else none

/-- The part of the `AudioManager` state that `switchAudioScheme` touches:
the active scheme id, the active note map, and the decoded-sample buffer
cache (`audioBuffers`, a map from file path to decoded buffer, the buffer
handle modelled as an opaque `Nat`). -/
structure ManagerSchemeState where
  currentScheme : Option String
  notesMap : List (String × SampleDef)
  audioBuffers : List (String × Nat)

/-- `AudioManager.switchAudioScheme` (`js/audio.js` lines 978-1011 and
`src/unnamed/part_003` lines 459-543): an unknown scheme id returns false
before anything is touched; a known id clears `audioBuffers`, sets
`currentScheme` and `notesMap` and returns true. -/
def switchAudioScheme (schemeId : String) (st : ManagerSchemeState) :
    Bool × ManagerSchemeState :=
  match lookupScheme schemeId with
  | none => (false, st)
  | some schemeMap =>
    (true,
     { currentScheme := some schemeId
       notesMap := schemeMap
       audioBuffers := [] })

/-- Whether the first list of characters starts the second. -/
def charsLead : List Char → List Char → Bool
  | [], _ => true
  | _ :: _, [] => false
  | a :: as, b :: bs => a == b && charsLead as bs

/-- Whether the first list of characters occurs inside the second. -/
def charsHasSub (pat : List Char) : List Char → Bool
  | [] => charsLead pat []
  | c :: rest => charsLead pat (c :: rest) || charsHasSub pat rest

/-- JavaScript `str.startsWith(pat)`. -/
def strLeads (str pat : String) : Bool :=
  charsLead pat.data str.data

/-- JavaScript `str.includes(pat)`. -/
def strHasSub (str pat : String) : Bool :=
  charsHasSub pat.data str.data

/-- A Service Worker response as far as `sw.js` inspects it: HTTP status,
response type (`'basic'` for same-origin network responses) and an opaque
payload tag distinguishing bodies. -/
structure SWResponse where
  status : Nat
  rtype : String
  tag : Nat
  deriving DecidableEq, Repr

/-- The synthetic `new Response('网络连接失败', { status: 408 })` built by the
network-failure fallbacks of `sw.js`. -/
def response408 : SWResponse :=
  { status := 408, rtype := "default", tag := 0 }

/-- A fetch-event request as far as `sw.js` inspects it: method, full URL
and the URL's pathname. -/
structure SWRequest where
  method : String
  url : String
  pathname : String
  deriving DecidableEq, Repr

/-- Outcome of the fetch handler: no `respondWith` at all (pass-through to
the browser), a response, or `respondWith` of the undefined result of a
missed fallback cache lookup. -/
inductive FetchOutcome
  | passthrough
  | respond (r : SWResponse)
  | respondMissing
  deriving DecidableEq, Repr

/-- The `fetch` event listener of `sw.js` (`src/unnamed/part_000` lines
78-182).  The cache is one association list from stored keys (full URLs
for runtime `cache.put(event.request, ...)` entries, pathnames for the
install-time `cache.addAll` manifest) to responses; `caches.match` is a
full-URL lookup, the audio second chance is `cache.match(url.pathname)`.
`network` is the outcome `fetch(event.request)` would produce (`none` for
a network failure), `putOk` whether `cache.put` succeeds.  Returns the
outcome, the cache afterwards, and how many network fetches were made. -/
def swFetch (req : SWRequest) (cache : List (String × SWResponse))
    (network : Option SWResponse) (putOk : Bool) :
    FetchOutcome × List (String × SWResponse) × Nat :=
  if req.method ≠ "GET" then
    (FetchOutcome.passthrough, cache, 0)
  else if strLeads req.url "chrome-extension:"
      || strLeads req.url "safari-extension:" then
    (FetchOutcome.passthrough, cache, 0)
  else
    let isAudioFile := strHasSub req.pathname "/audio/"
    match cache.lookup req.url with
    | some cachedResponse => (FetchOutcome.respond cachedResponse, cache, 0)
    | none =>
      if isAudioFile then
        match cache.lookup req.pathname with
        | some pathCachedResponse =>
          (FetchOutcome.respond pathCachedResponse, cache, 0)
        | none =>
          match network with
          | some response =>
            if response.status = 200 ∧ response.rtype = "basic" then
              if putOk then
                (FetchOutcome.respond response,
                 cache ++ [(req.url, response)], 1)
              else (FetchOutcome.respond response, cache, 1)
            else (FetchOutcome.respond response, cache, 1)
          | none => (FetchOutcome.respond response408, cache, 1)
      else
        match network with
        | some response =>
          if response.status = 200 ∧ response.rtype = "basic" then
            if putOk then
              (FetchOutcome.respond response,
               cache ++ [(req.url, response)], 1)
            else (FetchOutcome.respond response, cache, 1)
          else (FetchOutcome.respond response, cache, 1)
        | none =>
          if strHasSub req.url ".html" then
            match cache.lookup "/index.html" with
            | some fallback => (FetchOutcome.respond fallback, cache, 1)
            | none => (FetchOutcome.respondMissing, cache, 1)
          else (FetchOutcome.respond response408, cache, 1)

theorem oldestScan_spec (l : List SourceInfo) :
    ∀ (acc : Option SourceInfo) (m : SourceInfo),
      l.foldl
        (fun acc s =>
          match acc with
          | none => some s
          | some b => if s.startTime < b.startTime then some s else some b)
        acc = some m →
      (acc = some m ∨ m ∈ l) ∧ (∀ x ∈ l, m.startTime ≤ x.startTime) ∧
        (∀ b, acc = some b → m.startTime ≤ b.startTime) := by
  induction l with
  | nil =>
    intro acc m h
    simp only [List.foldl_nil] at h
    exact ⟨Or.inl h, by simp, fun b hb => by rw [h] at hb; cases hb; exact le_refl _⟩
  | cons a rest ih =>
    intro acc m h
    rw [List.foldl_cons] at h
    obtain ⟨hmem, hmin, hacc⟩ := ih _ m h
    have hstep : ∃ c,
        (match acc with
          | none => some a
          | some b => if a.startTime < b.startTime then some a else some b) = some c ∧
        (c = a ∨ acc = some c) ∧ c.startTime ≤ a.startTime ∧
        (∀ b, acc = some b → c.startTime ≤ b.startTime) := by
      match acc with
      | none => exact ⟨a, rfl, Or.inl rfl, le_refl _, fun b hb => by cases hb⟩
      | some b =>
        by_cases hlt : a.startTime < b.startTime
        · exact ⟨a, by simp [hlt], Or.inl rfl, le_refl _,
            fun c hc => by cases hc; exact le_of_lt hlt⟩
        · exact ⟨b, by simp [hlt], Or.inr rfl, le_of_not_lt hlt,
            fun c hc => by cases hc; exact le_refl _⟩
    obtain ⟨c, hc, hcmem, hca, hcacc⟩ := hstep
    rw [hc] at hmem hacc
    have hmc : m.startTime ≤ c.startTime := hacc c rfl
    refine ⟨?_, ?_, ?_⟩
    · rcases hmem with hem | hem
      · have hcm : c = m := by injection hem
        rcases hcmem with h1 | h1
        · exact Or.inr (by rw [← hcm, h1]; exact List.mem_cons_self _ _)
        · exact Or.inl (by rw [h1, hcm])
      · exact Or.inr (List.mem_cons_of_mem _ hem)
    · intro x hx
      rcases List.mem_cons.mp hx with hxa | hxr
      · exact hxa ▸ le_trans hmc hca
      · exact hmin x hxr
    · intro b hb
      exact le_trans hmc (hcacc b hb)

theorem oldestSource_spec (l : List SourceInfo) (m : SourceInfo)
    (h : oldestSource l = some m) :
    m ∈ l ∧ ∀ x ∈ l, m.startTime ≤ x.startTime := by
  obtain ⟨hmem, hmin, _⟩ := oldestScan_spec l none m h
  rcases hmem with hbad | hm
  · cases hbad
  · exact ⟨hm, hmin⟩

theorem oldestScan_some (l : List SourceInfo) :
    ∀ (b : SourceInfo), ∃ m,
      l.foldl
        (fun acc s =>
          match acc with
          | none => some s
          | some b => if s.startTime < b.startTime then some s else some b)
        (some b) = some m := by
  induction l with
  | nil => intro b; exact ⟨b, rfl⟩
  | cons a rest ih =>
    intro b
    rw [List.foldl_cons]
    by_cases hlt : a.startTime < b.startTime
    · simpa [hlt] using ih a
    · simpa [hlt] using ih b

theorem oldestSource_isSome (l : List SourceInfo) (h : l ≠ []) :
    ∃ m, oldestSource l = some m := by
  match l, h with
  | a :: rest, _ =>
    unfold oldestSource
    rw [List.foldl_cons]
    exact oldestScan_some rest a

theorem length_stopOldestSource (l : List SourceInfo) (h : l ≠ []) :
    (stopOldestSource l).length = l.length - 1 := by
  obtain ⟨m, hm⟩ := oldestSource_isSome l h
  obtain ⟨hmem, _⟩ := oldestSource_spec l m hm
  unfold stopOldestSource
  rw [hm]
  exact List.length_eraseP_of_mem hmem (by simp)

theorem playNote_preserves (noteName : String) (now : Int) (s : ControllerState) :
    (playNote noteName now s).2.maxConcurrent = s.maxConcurrent ∧
    (playNote noteName now s).2.debounceTime = s.debounceTime ∧
    (playNote noteName now s).2.mapped = s.mapped := by
  by_cases hgate : s.lastPlayTimes noteName ≠ 0 ∧
      now - s.lastPlayTimes noteName < s.debounceTime
  · simp [playNote, hgate]
  · by_cases hm : s.mapped noteName = true
    · simp [playNote, hgate, hm]
    · simp [playNote, hgate, hm]

theorem playNote_lastPlayTimes (noteName : String) (now : Int)
    (s : ControllerState)
    (hgate : ¬(s.lastPlayTimes noteName ≠ 0 ∧
      now - s.lastPlayTimes noteName < s.debounceTime)) :
    (playNote noteName now s).2.lastPlayTimes noteName = now := by
  by_cases hm : s.mapped noteName = true
  · simp [playNote, hgate, hm]
  · simp [playNote, hgate, hm]

/-- C1: a `playNote` call on a note whose recorded last-trigger time is
nonzero, arriving strictly less than the debounce window after that time,
returns null and changes nothing (no new instance is registered); a first
trigger (recorded time 0) or a call at or beyond the window is not
suppressed by the debounce gate (for a mapped note it registers and
returns the new instance id); the default debounce window is 150ms. -/
theorem C1_debounce_gate :
    (∀ (s : ControllerState) (noteName : String) (now : Int),
        s.lastPlayTimes noteName ≠ 0 →
        now - s.lastPlayTimes noteName < s.debounceTime →
        playNote noteName now s = (none, s))
    ∧ (∀ (s : ControllerState) (noteName : String) (now : Int),
        s.mapped noteName = true →
        (s.lastPlayTimes noteName = 0 ∨
          s.debounceTime ≤ now - s.lastPlayTimes noteName) →
        (playNote noteName now s).1 = some s.nextId)
    ∧ (∀ mapped, (initController mapped).debounceTime = 150) := by
  refine ⟨?_, ?_, fun _ => rfl⟩
  · intro s noteName now h1 h2
    unfold playNote
    rw [if_pos ⟨h1, h2⟩]
  · intro s noteName now hm hgate
    have hcond : ¬(s.lastPlayTimes noteName ≠ 0 ∧
        now - s.lastPlayTimes noteName < s.debounceTime) := by
      rcases hgate with h | h
      · exact fun hc => hc.1 h
      · exact fun hc => absurd h (not_le.mpr hc.2)
    simp [playNote, hcond, hm]

/-- Concrete controller state for the C1 witness: note "5" last triggered
at time 1000, one matching active source, all notes mapped. -/
def c1Demo : ControllerState :=
  { lastPlayTimes := fun n => if n = "5" then 1000 else 0
    activeSources := [⟨0, "5", 1000⟩]
    nextId := 1
    maxConcurrent := 40
    debounceTime := 150
    mapped := fun _ => true }

theorem C1_debounce_gate_witness :
    playNote "5" 1050 c1Demo = (none, c1Demo) ∧
    (playNote "5" 1200 c1Demo).1 = some 1 ∧
    (initController (fun _ => true)).debounceTime = 150 :=
  ⟨C1_debounce_gate.1 c1Demo "5" 1050 (by decide) (by decide),
   C1_debounce_gate.2.1 c1Demo "5" 1200 rfl (Or.inr (by decide)),
   C1_debounce_gate.2.2 (fun _ => true)⟩

theorem countNote_append (noteName : String) (l1 l2 : List SourceInfo) :
    countNote noteName (l1 ++ l2) =
      countNote noteName l1 + countNote noteName l2 := by
  simp [countNote, List.filter_append]

theorem countNote_stopNote (noteName : String) (l : List SourceInfo) :
    countNote noteName (stopNoteSources noteName l) = 0 := by
  simp only [countNote, stopNoteSources, List.filter_filter,
    List.length_eq_zero, List.filter_eq_nil_iff]
  intro a _
  by_cases h : a.noteName = noteName <;> simp [h]

theorem playNote_count_one (s : ControllerState) (noteName : String)
    (now : Int) (hm : s.mapped noteName = true)
    (hgate : s.lastPlayTimes noteName = 0 ∨
      s.debounceTime ≤ now - s.lastPlayTimes noteName) :
    (playNote noteName now s).1 = some s.nextId ∧
    countNote noteName (playNote noteName now s).2.activeSources = 1 := by
  have hcond : ¬(s.lastPlayTimes noteName ≠ 0 ∧
      now - s.lastPlayTimes noteName < s.debounceTime) := by
    rcases hgate with h | h
    · exact fun hc => hc.1 h
    · exact fun hc => absurd h (not_le.mpr hc.2)
  constructor
  · simp [playNote, hcond, hm]
  · simp only [playNote, hcond, hm, if_false, if_true, ite_true, ite_false,
      if_neg hcond, if_pos hm]
    rw [countNote_append, countNote_stopNote]
    simp [countNote]

/-- C3: the dispatch path stops all existing registry instances of the
same note before registering the new instance, so immediately after a
successful (non-debounced, mapped) `playNote` the registry holds exactly
one instance tagged with that note; in particular after two `playNote`
calls on the same note separated by at least the debounce window, starting
from a fresh controller, the registry holds exactly one instance of that
note. -/
theorem C3_one_voice_per_note :
    (∀ (s : ControllerState) (noteName : String) (now : Int),
        s.mapped noteName = true →
        (s.lastPlayTimes noteName = 0 ∨
          s.debounceTime ≤ now - s.lastPlayTimes noteName) →
        (playNote noteName now s).1 = some s.nextId ∧
        countNote noteName (playNote noteName now s).2.activeSources = 1)
    ∧ (∀ (mapped : String → Bool) (noteName : String) (t1 t2 : Int),
        mapped noteName = true →
        150 ≤ t2 - t1 →
        countNote noteName
          ((playNote noteName t2
            (playNote noteName t1 (initController mapped)).2).2.activeSources)
          = 1) := by
  refine ⟨playNote_count_one, ?_⟩
  intro mapped noteName t1 t2 hm hsep
  have hgate1 : ¬((initController mapped).lastPlayTimes noteName ≠ 0 ∧
      t1 - (initController mapped).lastPlayTimes noteName <
        (initController mapped).debounceTime) := by
    simp [initController]
  have hpres := playNote_preserves noteName t1 (initController mapped)
  have hlast := playNote_lastPlayTimes noteName t1 (initController mapped) hgate1
  set s1 := (playNote noteName t1 (initController mapped)).2 with hs1
  have hdb : s1.debounceTime = 150 := by
    rw [hpres.2.1]; rfl
  have hm1 : s1.mapped noteName = true := by
    rw [hpres.2.2]; exact hm
  have hgate2 : s1.lastPlayTimes noteName = 0 ∨
      s1.debounceTime ≤ t2 - s1.lastPlayTimes noteName := by
    right
    rw [hdb, hlast]
    exact hsep
  exact (playNote_count_one s1 noteName t2 hm1 hgate2).2

theorem C3_one_voice_per_note_witness :
    ((playNote "5" 1300 c1Demo).1 = some c1Demo.nextId ∧
      countNote "5" (playNote "5" 1300 c1Demo).2.activeSources = 1) ∧
    countNote "5"
      ((playNote "5" 200
        (playNote "5" 10 (initController (fun _ => true))).2).2.activeSources)
      = 1 :=
  ⟨C3_one_voice_per_note.1 c1Demo "5" 1300 rfl (Or.inr (by decide)),
   C3_one_voice_per_note.2 (fun _ => true) "5" 10 200 rfl (by decide)⟩

theorem length_stopNoteSources_le (noteName : String) (l : List SourceInfo) :
    (stopNoteSources noteName l).length ≤ l.length :=
  List.length_filter_le _ _

theorem playNote_length_le (s : ControllerState) (noteName : String)
    (now : Int) (hpos : 0 < s.maxConcurrent)
    (hlen : s.activeSources.length ≤ s.maxConcurrent) :
    (playNote noteName now s).2.activeSources.length ≤ s.maxConcurrent := by
  by_cases hgate : s.lastPlayTimes noteName ≠ 0 ∧
      now - s.lastPlayTimes noteName < s.debounceTime
  · simpa [playNote, hgate] using hlen
  · have hs1 : (if s.maxConcurrent ≤ s.activeSources.length then
        stopOldestSource s.activeSources
      else s.activeSources).length + 1 ≤ s.maxConcurrent := by
      by_cases hfull : s.maxConcurrent ≤ s.activeSources.length
      · have hne : s.activeSources ≠ [] := by
          intro hnil
          rw [hnil] at hfull
          simp only [List.length_nil] at hfull
          omega
        rw [if_pos hfull, length_stopOldestSource _ hne]
        omega
      · rw [if_neg hfull]
        omega
    have hfil := length_stopNoteSources_le noteName
      (if s.maxConcurrent ≤ s.activeSources.length then
        stopOldestSource s.activeSources
      else s.activeSources)
    by_cases hm : s.mapped noteName = true
    · simp only [playNote, if_neg hgate, hm, ite_true, List.length_append,
        List.length_cons, List.length_nil]
      omega
    · simp only [playNote, if_neg hgate, hm, ite_false, Bool.false_eq_true]
      omega

theorem runCalls_length_le (calls : List (String × Int)) :
    ∀ (s : ControllerState), s.maxConcurrent = 40 →
      s.activeSources.length ≤ 40 →
      (runCalls s calls).activeSources.length ≤ 40 := by
  induction calls with
  | nil => intro s _ hlen; exact hlen
  | cons c rest ih =>
    intro s hmax hlen
    obtain ⟨note, t⟩ := c
    have hstep := playNote_length_le s note t (by omega) (by omega)
    have hpres := (playNote_preserves note t s).1
    exact ih _ (hpres.trans hmax) (by rw [hmax] at hstep; exact hstep)

/-- The spec's 41-distinct-notes scenario: notes "1".."41" triggered in
sequence at strictly increasing timestamps, from a fresh controller whose
scheme maps every note. -/
def scenario41 : ControllerState :=
  runCalls (initController (fun _ => true))
    ((List.range 41).map (fun i => (toString (i + 1), (i + 1 : Int))))

/-- C2: with the default maximum concurrency 40, the registry size never
exceeds 40 over any sequence of `playNote` calls; whenever a register
would exceed the bound the eviction scan (`stopOldestSource`) removes an
instance of minimal start timestamp; and triggering the 41 distinct notes
"1".."41" in sequence leaves exactly the 40 instances of notes "2".."41",
the first-triggered note "1" having been evicted. -/
theorem C2_concurrency_bound :
    (∀ (calls : List (String × Int)) (s : ControllerState),
        s.maxConcurrent = 40 →
        s.activeSources.length ≤ 40 →
        (runCalls s calls).activeSources.length ≤ 40)
    ∧ (∀ (l : List SourceInfo) (m : SourceInfo),
        oldestSource l = some m →
        m ∈ l ∧ (∀ x ∈ l, m.startTime ≤ x.startTime) ∧
        stopOldestSource l = l.eraseP (fun s => s.id == m.id))
    ∧ (scenario41.activeSources.length = 40 ∧
        scenario41.activeSources.map SourceInfo.noteName =
          (List.range 40).map (fun i => toString (i + 2))) := by
  refine ⟨?_, ?_, ?_, ?_⟩
  · intro calls s hmax hlen
    exact runCalls_length_le calls s hmax hlen
  · intro l m h
    obtain ⟨hmem, hmin⟩ := oldestSource_spec l m h
    exact ⟨hmem, hmin, by unfold stopOldestSource; rw [h]⟩
  · set_option maxRecDepth 10000 in rfl
  · set_option maxRecDepth 10000 in rfl

theorem C2_concurrency_bound_witness :
    (runCalls (initController (fun _ => true)) [("1", 5), ("2", 300)]
        ).activeSources.length ≤ 40 ∧
    (⟨1, "2", 3⟩ : SourceInfo) ∈
        [(⟨0, "1", 5⟩ : SourceInfo), ⟨1, "2", 3⟩] ∧
      (∀ x ∈ [(⟨0, "1", 5⟩ : SourceInfo), ⟨1, "2", 3⟩],
        (⟨1, "2", 3⟩ : SourceInfo).startTime ≤ x.startTime) ∧
      stopOldestSource [(⟨0, "1", 5⟩ : SourceInfo), ⟨1, "2", 3⟩] =
        ([(⟨0, "1", 5⟩ : SourceInfo), ⟨1, "2", 3⟩].eraseP
          (fun s => s.id == (1 : Nat))) :=
  ⟨C2_concurrency_bound.1 [("1", 5), ("2", 300)]
      (initController (fun _ => true)) rfl (by decide),
   C2_concurrency_bound.2.1 [⟨0, "1", 5⟩, ⟨1, "2", 3⟩] ⟨1, "2", 3⟩ (by decide)⟩

/-- C4: every successful non-sustain oscillator `playNote` with peak
volume `V = velocity * volume` schedules exactly the gain envelope
value 0 at `t0`, a linear ramp to `V` at `t0+attack`, an exponential ramp
to `V*sustain` at `t0+attack+decay`, a set of `V*sustain` at
`t0+duration-release`, and an exponential ramp to the floor 0.001 (not
exact zero) at `t0+duration`; the oscillator is started at `t0` and
stopped at `t0+duration`. -/
theorem C4_adsr_envelope :
    ∀ (pitch : Pitch) (s : ℚ) (o : OscOptions) (noteName : String)
      (velocity t0 : ℚ) (r : OscPlayResult),
      oscPlayNote pitch s o noteName velocity t0 = some r →
      r.envelope =
        [EnvCmd.setValueAtTime 0 t0,
         EnvCmd.linearRampToValueAtTime (velocity * o.volume) (t0 + o.attack),
         EnvCmd.exponentialRampToValueAtTime
           (velocity * o.volume * o.sustain) (t0 + o.attack + o.decay),
         EnvCmd.setValueAtTime (velocity * o.volume * o.sustain)
           (t0 + o.duration - o.release),
         EnvCmd.exponentialRampToValueAtTime (1/1000) (t0 + o.duration)] ∧
      r.startTime = t0 ∧ r.stopTime = t0 + o.duration := by
  intro pitch s o noteName velocity t0 r h
  unfold oscPlayNote at h
  cases hf : getFrequencyForNote pitch o.waveType s noteName with
  | none => rw [hf] at h; cases h
  | some f =>
    rw [hf] at h
    dsimp only at h
    by_cases hz : f = 0
    · rw [if_pos hz] at h; cases h
    · rw [if_neg hz] at h
      injection h with h
      subst h
      exact ⟨rfl, rfl, rfl⟩

/-- Concrete options for the C4 witness: square wave (no semitone
correction), the `OscillatorManager` defaults except the square
waveform. -/
def c4Opts : OscOptions :=
  { waveType := Wave.square
    volume := 3/10
    duration := 1/2
    attack := 1/100
    decay := 1/10
    sustain := 3/10
    release := 1/2 }

/-- The record a successful `oscPlayNote` returns on the C4 witness
input. -/
def c4Result : OscPlayResult :=
  { frequency := 26163/100
    envelope := applyADSREnvelope 0 (7/10 * c4Opts.volume) c4Opts
    startTime := 0
    stopTime := 0 + c4Opts.duration }

theorem C4_adsr_envelope_witness :
    oscPlayNote Pitch.medium 2 c4Opts "1" (7/10) 0 = some c4Result ∧
    c4Result.envelope =
      [EnvCmd.setValueAtTime 0 0,
       EnvCmd.linearRampToValueAtTime (7/10 * c4Opts.volume) (0 + c4Opts.attack),
       EnvCmd.exponentialRampToValueAtTime
         (7/10 * c4Opts.volume * c4Opts.sustain)
         (0 + c4Opts.attack + c4Opts.decay),
       EnvCmd.setValueAtTime (7/10 * c4Opts.volume * c4Opts.sustain)
         (0 + c4Opts.duration - c4Opts.release),
       EnvCmd.exponentialRampToValueAtTime (1/1000) (0 + c4Opts.duration)] ∧
    c4Result.startTime = 0 ∧ c4Result.stopTime = 0 + c4Opts.duration := by
  have hp : jsParseInt "1" = some 1 := rfl
  have hw : ¬(Wave.square = Wave.sine ∨ Wave.square = Wave.triangle) := by
    decide
  have h : oscPlayNote Pitch.medium 2 c4Opts "1" (7/10) 0 = some c4Result := by
    norm_num [oscPlayNote, getFrequencyForNote, hp, hw, NOTE_FREQUENCIES,
      pitchMultiplier, semitoneCorrection, c4Opts, c4Result, applyADSREnvelope]
  exact ⟨h, C4_adsr_envelope Pitch.medium 2 c4Opts "1" (7/10) 0 c4Result h⟩

theorem jsParseInt_toString (n : ℕ) (h1 : 1 ≤ n) (h19 : n ≤ 19) :
    jsParseInt (toString n) = some (n : Int) := by
  interval_cases n <;> rfl

theorem getFrequencyForNote_table (pitch : Pitch) (w : Wave) (s : ℚ)
    (n : ℕ) (h1 : 1 ≤ n) (h19 : n ≤ 19) :
    getFrequencyForNote pitch w s (toString n) =
      some (NOTE_FREQUENCIES.getD (n - 1) 0 * pitchMultiplier pitch *
        semitoneCorrection w s) := by
  have hp := jsParseInt_toString n h1 h19
  have hlen : (NOTE_FREQUENCIES.length : Int) = 19 := rfl
  simp only [getFrequencyForNote, hp]
  rw [if_pos (by omega : (0:Int) ≤ (n:Int) - 1 ∧
    (n:Int) - 1 < (NOTE_FREQUENCIES.length : Int))]
  have hidx : ((n : Int) - 1).toNat = n - 1 := by omega
  rw [hidx]

theorem pitchMultiplier_pos (p : Pitch) : 0 < pitchMultiplier p := by
  cases p <;> norm_num [pitchMultiplier]

theorem semitoneCorrection_pos (w : Wave) (s : ℚ) (hs : 0 < s) :
    0 < semitoneCorrection w s := by
  unfold semitoneCorrection
  split
  · exact hs
  · exact one_pos

theorem noteFreq_strict_mono {m n : ℕ} (hmn : m < n) (hn : n < 19) :
    NOTE_FREQUENCIES.getD m 0 < NOTE_FREQUENCIES.getD n 0 := by
  have hchain : List.Chain' (· < ·) NOTE_FREQUENCIES := by
    norm_num [NOTE_FREQUENCIES, List.chain'_cons]
  have hpair := List.chain'_iff_pairwise.mp hchain
  have hm : m < NOTE_FREQUENCIES.length := by
    simp only [NOTE_FREQUENCIES, List.length_cons, List.length_nil]; omega
  have hn' : n < NOTE_FREQUENCIES.length := by
    simp only [NOTE_FREQUENCIES, List.length_cons, List.length_nil]; omega
  rw [List.getD_eq_getElem _ _ hm, List.getD_eq_getElem _ _ hn']
  exact List.pairwise_iff_getElem.mp hpair m n hm hn' hmn

/-- C5: within one fixed pitch mode and one fixed waveform (any positive
value of the semitone factor `s = 2^(1/12)`), `getFrequencyForNote` is
strictly monotonically increasing over the note identifiers "1".."19". -/
theorem C5_frequency_monotone :
    ∀ (pitch : Pitch) (w : Wave) (s : ℚ), 0 < s →
      ∀ m n : ℕ, 1 ≤ m → m < n → n ≤ 19 →
      ∃ fm fn,
        getFrequencyForNote pitch w s (toString m) = some fm ∧
        getFrequencyForNote pitch w s (toString n) = some fn ∧
        fm < fn := by
  intro pitch w s hs m n h1 hmn h19
  refine ⟨_, _, getFrequencyForNote_table pitch w s m h1 (by omega),
    getFrequencyForNote_table pitch w s n (by omega) h19, ?_⟩
  have hmul : 0 < pitchMultiplier pitch * semitoneCorrection w s :=
    mul_pos (pitchMultiplier_pos pitch) (semitoneCorrection_pos w s hs)
  have htab : NOTE_FREQUENCIES.getD (m - 1) 0 < NOTE_FREQUENCIES.getD (n - 1) 0 :=
    noteFreq_strict_mono (by omega) (by omega)
  rw [mul_assoc, mul_assoc]
  exact mul_lt_mul_of_pos_right htab hmul

theorem C5_frequency_monotone_witness :
    ∃ fm fn,
      getFrequencyForNote Pitch.medium Wave.sine (106/100) (toString 1) = some fm ∧
      getFrequencyForNote Pitch.medium Wave.sine (106/100) (toString 19) = some fn ∧
      fm < fn :=
  C5_frequency_monotone Pitch.medium Wave.sine (106/100) (by norm_num)
    1 19 (by norm_num) (by norm_num) (by norm_num)

/-- C6: switching to a known scheme id empties the decoded-sample buffer
cache (size 0, every path lookup misses, so a later play must re-decode),
installs the scheme id and its note map, and returns true; an unknown id
returns false and leaves scheme, note map and cache untouched. -/
theorem C6_switch_scheme :
    (∀ (st : ManagerSchemeState) (schemeId : String)
        (schemeMap : List (String × SampleDef)),
        lookupScheme schemeId = some schemeMap →
        switchAudioScheme schemeId st =
          (true, { currentScheme := some schemeId
                   notesMap := schemeMap
                   audioBuffers := [] }) ∧
        (switchAudioScheme schemeId st).2.audioBuffers.length = 0 ∧
        (∀ path, (switchAudioScheme schemeId st).2.audioBuffers.lookup path
          = none))
    ∧ (∀ (st : ManagerSchemeState) (schemeId : String),
        lookupScheme schemeId = none →
        switchAudioScheme schemeId st = (false, st)) := by
  constructor
  · intro st schemeId schemeMap h
    have heq : switchAudioScheme schemeId st =
        (true, { currentScheme := some schemeId
                 notesMap := schemeMap
                 audioBuffers := [] }) := by
      unfold switchAudioScheme
      rw [h]
    refine ⟨heq, ?_, ?_⟩
    · rw [heq]
      rfl
    · intro path
      rw [heq]
      rfl
  · intro st schemeId h
    unfold switchAudioScheme
    rw [h]

/-- Concrete manager state for the C6 witness: popular scheme active, one
decoded buffer cached. -/
def c6Demo : ManagerSchemeState :=
  { currentScheme := some "popular"
    notesMap := popularNotesMap
    audioBuffers := [("/audio/f4-b5/a01.mp3", 1)] }

theorem C6_switch_scheme_witness :
    (switchAudioScheme "golden" c6Demo =
        (true, { currentScheme := some "golden"
                 notesMap := goldenNotesMap
                 audioBuffers := [] }) ∧
      (switchAudioScheme "golden" c6Demo).2.audioBuffers.length = 0 ∧
      (∀ path, (switchAudioScheme "golden" c6Demo).2.audioBuffers.lookup path
        = none)) ∧
    switchAudioScheme "alien" c6Demo = (false, c6Demo) :=
  ⟨C6_switch_scheme.1 c6Demo "golden" goldenNotesMap rfl,
   C6_switch_scheme.2 c6Demo "alien" rfl⟩

theorem sustainLookup_none_iff (noteName : String)
    (table : List (String × SustainEntry)) :
    table.lookup noteName = none ↔ noteName ∉ table.map Prod.fst := by
  induction table with
  | nil => simp
  | cons a rest ih =>
    obtain ⟨k, v⟩ := a
    by_cases hk : (noteName == k) = true
    · have hkeq : noteName = k := eq_of_beq hk
      simp [List.lookup, hk, hkeq]
    · have hne : noteName ≠ k := fun hcontra => hk (by rw [hcontra]; exact beq_self_eq_true k)
      simp [List.lookup, hk, hne, ih]

theorem sustain_lookup_eraseP_none (noteName : String) :
    ∀ (table : List (String × SustainEntry)),
      (table.map Prod.fst).Nodup →
      (table.eraseP (fun p => p.1 == noteName)).lookup noteName = none := by
  intro table
  induction table with
  | nil => intro _; rfl
  | cons a rest ih =>
    intro hnd
    obtain ⟨k, v⟩ := a
    simp only [List.map_cons, List.nodup_cons] at hnd
    by_cases hk : (k == noteName) = true
    · have hkeq : k = noteName := eq_of_beq hk
      subst hkeq
      simp only [List.eraseP_cons, beq_self_eq_true, cond_true]
      rw [sustainLookup_none_iff]
      exact hnd.1
    · have hk' : ((k, v).1 == noteName) = false := by
        simpa using hk
      simp only [List.eraseP_cons, hk', cond_false]
      have hne : (noteName == k) = false := by
        have hne' : ¬ noteName = k := by
          intro hcontra
          subst hcontra
          simp at hk'
        simpa using hne'
      simp only [List.lookup, hne]
      exact ih hnd.2

/-- C8: `playSustainedNote` is idempotent per note: a note already in the
Sustained-Note Table returns the existing instance id and leaves the table
unchanged (no new voice); the table keeps at most one entry per note
identifier (key nodup is preserved); and a fresh sustained note is started
with the single constant-gain scheduling call
`setValueAtTime(velocity * volume)` — no envelope. -/
theorem C8_sustained_idempotent :
    (∀ (pitch : Pitch) (s : ℚ) (o : OscOptions) (noteName : String)
        (velocity : ℚ) (now : Int) (ctxTime : ℚ)
        (table : List (String × SustainEntry)) (e : SustainEntry),
        table.lookup noteName = some e →
        playSustainedNote pitch s o noteName velocity now ctxTime table =
          (some e.id, table))
    ∧ (∀ (pitch : Pitch) (s : ℚ) (o : OscOptions) (noteName : String)
        (velocity : ℚ) (now : Int) (ctxTime : ℚ)
        (table : List (String × SustainEntry)),
        (table.map Prod.fst).Nodup →
        (((playSustainedNote pitch s o noteName velocity now ctxTime
            table).2).map Prod.fst).Nodup)
    ∧ (∀ (pitch : Pitch) (s : ℚ) (o : OscOptions) (noteName : String)
        (velocity : ℚ) (now : Int) (ctxTime : ℚ)
        (table : List (String × SustainEntry)) (f : ℚ),
        table.lookup noteName = none →
        getFrequencyForNote pitch o.waveType s noteName = some f →
        f ≠ 0 →
        playSustainedNote pitch s o noteName velocity now ctxTime table =
          (some now, table ++ [(noteName,
            { id := now
              envelope :=
                [EnvCmd.setValueAtTime (velocity * o.volume) ctxTime] })])) := by
  refine ⟨?_, ?_, ?_⟩
  · intro pitch s o noteName velocity now ctxTime table e h
    unfold playSustainedNote
    rw [h]
  · intro pitch s o noteName velocity now ctxTime table hnd
    unfold playSustainedNote
    cases hl : table.lookup noteName with
    | some e => exact hnd
    | none =>
      cases hf : getFrequencyForNote pitch o.waveType s noteName with
      | none => exact hnd
      | some f =>
        dsimp only
        by_cases hz : f = 0
        · rw [if_pos hz]
          exact hnd
        · rw [if_neg hz]
          dsimp only
          rw [List.map_append]
          rw [List.nodup_append]
          refine ⟨hnd, by simp, ?_⟩
          intro x hx
          simp only [List.map_cons, List.map_nil, List.mem_singleton]
          intro hxn
          rw [hxn] at hx
          exact absurd hx ((sustainLookup_none_iff _ table).mp hl)
  · intro pitch s o noteName velocity now ctxTime table f hl hf hz
    unfold playSustainedNote
    rw [hl, hf]
    dsimp only
    rw [if_neg hz]

/-- Concrete table for the C8/C9 witnesses: note "3" sustaining. -/
def sustainDemo : List (String × SustainEntry) :=
  [("3", { id := 500, envelope := [EnvCmd.setValueAtTime (21/100) 2] })]

theorem C8_sustained_idempotent_witness :
    playSustainedNote Pitch.medium (106/100) c4Opts "3" (7/10) 900 5
        sustainDemo =
      (some 500, sustainDemo) ∧
    (((playSustainedNote Pitch.medium (106/100) c4Opts "3" (7/10) 900 5
        sustainDemo).2).map Prod.fst).Nodup ∧
    playSustainedNote Pitch.medium (106/100) c4Opts "5" (7/10) 900 5
        sustainDemo =
      (some 900, sustainDemo ++ [("5",
        { id := 900
          envelope :=
            [EnvCmd.setValueAtTime (7/10 * c4Opts.volume) 5] })]) :=
  ⟨C8_sustained_idempotent.1 Pitch.medium (106/100) c4Opts "3" (7/10) 900 5
      sustainDemo { id := 500, envelope := [EnvCmd.setValueAtTime (21/100) 2] }
      rfl,
   C8_sustained_idempotent.2.1 Pitch.medium (106/100) c4Opts "3" (7/10) 900 5
      sustainDemo (by simp [sustainDemo]),
   C8_sustained_idempotent.2.2 Pitch.medium (106/100) c4Opts "5" (7/10) 900 5
      sustainDemo (NOTE_FREQUENCIES.getD 4 0 * pitchMultiplier Pitch.medium *
        semitoneCorrection Wave.square (106/100)) rfl
      (getFrequencyForNote_table Pitch.medium Wave.square (106/100) 5
        (by norm_num) (by norm_num))
      (by
        have hw : ¬(Wave.square = Wave.sine ∨ Wave.square = Wave.triangle) := by
          decide
        norm_num [NOTE_FREQUENCIES, pitchMultiplier, semitoneCorrection, hw])⟩

/-- C9: `stopSustainedNote` on a note absent from the Sustained-Note Table
is a no-op (the table is unchanged and nothing is scheduled, so a second
call raises no error); on a present note it schedules the exponential
fade to the floor 0.001 over the configured release time plus the delayed
stop, and removes the entry, so the table has no entry for the note
afterwards and an immediate second call is a no-op. -/
theorem C9_stop_sustained :
    (∀ (o : OscOptions) (ctxTime : ℚ) (noteName : String)
        (table : List (String × SustainEntry)),
        table.lookup noteName = none →
        stopSustainedNote o ctxTime noteName table = (table, none))
    ∧ (∀ (o : OscOptions) (ctxTime : ℚ) (noteName : String)
        (table : List (String × SustainEntry)) (e : SustainEntry),
        (table.map Prod.fst).Nodup →
        table.lookup noteName = some e →
        (stopSustainedNote o ctxTime noteName table).1.lookup noteName
          = none ∧
        (stopSustainedNote o ctxTime noteName table).2 =
          some { fadeFloor := 1/1000
                 fadeEnd := ctxTime + o.duration
                 stopDelayMs := o.duration * 1000 })
    ∧ (∀ (o : OscOptions) (ctxTime : ℚ) (noteName : String)
        (table : List (String × SustainEntry)),
        (table.map Prod.fst).Nodup →
        stopSustainedNote o ctxTime noteName
            (stopSustainedNote o ctxTime noteName table).1 =
          ((stopSustainedNote o ctxTime noteName table).1, none) ∧
        (stopSustainedNote o ctxTime noteName table).1.lookup noteName
          = none) := by
  have habsent : ∀ (o : OscOptions) (ctxTime : ℚ) (noteName : String)
      (table : List (String × SustainEntry)),
      table.lookup noteName = none →
      stopSustainedNote o ctxTime noteName table = (table, none) := by
    intro o ctxTime noteName table h
    unfold stopSustainedNote
    rw [h]
  have herase : ∀ (o : OscOptions) (ctxTime : ℚ) (noteName : String)
      (table : List (String × SustainEntry)) (e : SustainEntry),
      (table.map Prod.fst).Nodup →
      table.lookup noteName = some e →
      (stopSustainedNote o ctxTime noteName table).1.lookup noteName
        = none := by
    intro o ctxTime noteName table e hnd h
    unfold stopSustainedNote
    rw [h]
    exact sustain_lookup_eraseP_none noteName table hnd
  refine ⟨habsent, ?_, ?_⟩
  · intro o ctxTime noteName table e hnd h
    refine ⟨herase o ctxTime noteName table e hnd h, ?_⟩
    unfold stopSustainedNote
    rw [h]
  · intro o ctxTime noteName table hnd
    cases h : table.lookup noteName with
    | none =>
      have hfix := habsent o ctxTime noteName table h
      rw [hfix]
      exact ⟨habsent o ctxTime noteName table h, h⟩
    | some e =>
      have hnone := herase o ctxTime noteName table e hnd h
      exact ⟨habsent o ctxTime noteName _ hnone, hnone⟩

theorem C9_stop_sustained_witness :
    stopSustainedNote c4Opts 2 "7" sustainDemo = (sustainDemo, none) ∧
    ((stopSustainedNote c4Opts 2 "3" sustainDemo).1.lookup "3" = none ∧
      (stopSustainedNote c4Opts 2 "3" sustainDemo).2 =
        some { fadeFloor := 1/1000
               fadeEnd := 2 + c4Opts.duration
               stopDelayMs := c4Opts.duration * 1000 }) ∧
    (stopSustainedNote c4Opts 2 "3"
        (stopSustainedNote c4Opts 2 "3" sustainDemo).1 =
      ((stopSustainedNote c4Opts 2 "3" sustainDemo).1, none) ∧
      (stopSustainedNote c4Opts 2 "3" sustainDemo).1.lookup "3" = none) :=
  ⟨C9_stop_sustained.1 c4Opts 2 "7" sustainDemo rfl,
   C9_stop_sustained.2.1 c4Opts 2 "3" sustainDemo
      { id := 500, envelope := [EnvCmd.setValueAtTime (21/100) 2] }
      (by simp [sustainDemo]) rfl,
   C9_stop_sustained.2.2 c4Opts 2 "3" sustainDemo (by simp [sustainDemo])⟩

/-- The C7 counterexample request: a GET for an audio-path URL that also
contains ".html". -/
def c7Req : SWRequest :=
  { method := "GET"
    url := "https://example.com/audio/page.html"
    pathname := "/audio/page.html" }

/-- The cached copy of `/index.html` present in the C7 counterexample
cache. -/
def c7IndexResponse : SWResponse :=
  { status := 200, rtype := "basic", tag := 7 }

/-- The C7 counterexample cache: only `/index.html` is cached. -/
def c7Cache : List (String × SWResponse) :=
  [("/index.html", c7IndexResponse)]

/-- C7 counterexample: the claim says that on network failure the handler
returns the cached `index.html` for `.html` requests; but for a GET
request whose URL contains ".html" while its pathname lies under
`/audio/`, a full cache miss with network failure takes the audio branch,
whose catch handler returns the synthetic 408 response — not the cached
`index.html`, which is present in the cache here. -/
theorem C7_cache_first_counterexample :
    strHasSub c7Req.url ".html" = true ∧
    c7Cache.lookup "/index.html" = some c7IndexResponse ∧
    (swFetch c7Req c7Cache none true).1 = FetchOutcome.respond response408 ∧
    response408 ≠ c7IndexResponse := by
  refine ⟨rfl, rfl, rfl, ?_⟩
  intro h
  cases h

/-- C7 (amended): the Service Worker fetch handler is cache-first.
Non-GET requests and browser-extension schemes pass through untouched.  A
GET whose full URL has a cache entry is answered from the cache with no
network fetch.  On a miss for an audio path, a path-only cache match is
tried before the network.  On a full miss exactly one network fetch is
made, the network response is returned, and it is stored in the cache
(keyed by the full URL) exactly when it is a same-origin ("basic")
status-200 response and the store succeeds — a store failure still
returns the response.  On network failure the handler returns the cached
`index.html` for non-audio-path requests whose URL contains ".html", and
a synthetic status-408 response otherwise (audio-path requests get the
408 even when their URL contains ".html"). -/
theorem C7_cache_first_amended :
    (∀ (req : SWRequest) (cache : List (String × SWResponse))
        (network : Option SWResponse) (putOk : Bool),
        req.method ≠ "GET" →
        swFetch req cache network putOk =
          (FetchOutcome.passthrough, cache, 0))
    ∧ (∀ (req : SWRequest) (cache : List (String × SWResponse))
        (network : Option SWResponse) (putOk : Bool),
        req.method = "GET" →
        (strLeads req.url "chrome-extension:" = true ∨
          strLeads req.url "safari-extension:" = true) →
        swFetch req cache network putOk =
          (FetchOutcome.passthrough, cache, 0))
    ∧ (∀ (req : SWRequest) (cache : List (String × SWResponse))
        (network : Option SWResponse) (putOk : Bool) (r : SWResponse),
        req.method = "GET" →
        strLeads req.url "chrome-extension:" = false →
        strLeads req.url "safari-extension:" = false →
        cache.lookup req.url = some r →
        swFetch req cache network putOk = (FetchOutcome.respond r, cache, 0))
    ∧ (∀ (req : SWRequest) (cache : List (String × SWResponse))
        (network : Option SWResponse) (putOk : Bool) (r : SWResponse),
        req.method = "GET" →
        strLeads req.url "chrome-extension:" = false →
        strLeads req.url "safari-extension:" = false →
        cache.lookup req.url = none →
        strHasSub req.pathname "/audio/" = true →
        cache.lookup req.pathname = some r →
        swFetch req cache network putOk = (FetchOutcome.respond r, cache, 0))
    ∧ (∀ (req : SWRequest) (cache : List (String × SWResponse))
        (resp : SWResponse) (putOk : Bool),
        req.method = "GET" →
        strLeads req.url "chrome-extension:" = false →
        strLeads req.url "safari-extension:" = false →
        cache.lookup req.url = none →
        (strHasSub req.pathname "/audio/" = false ∨
          cache.lookup req.pathname = none) →
        swFetch req cache (some resp) putOk =
          (FetchOutcome.respond resp,
           (if resp.status = 200 ∧ resp.rtype = "basic" ∧ putOk = true then
              cache ++ [(req.url, resp)]
            else cache),
           1))
    ∧ (∀ (req : SWRequest) (cache : List (String × SWResponse))
        (putOk : Bool),
        req.method = "GET" →
        strLeads req.url "chrome-extension:" = false →
        strLeads req.url "safari-extension:" = false →
        cache.lookup req.url = none →
        strHasSub req.pathname "/audio/" = true →
        cache.lookup req.pathname = none →
        swFetch req cache none putOk =
          (FetchOutcome.respond response408, cache, 1))
    ∧ (∀ (req : SWRequest) (cache : List (String × SWResponse))
        (putOk : Bool) (idx : SWResponse),
        req.method = "GET" →
        strLeads req.url "chrome-extension:" = false →
        strLeads req.url "safari-extension:" = false →
        cache.lookup req.url = none →
        strHasSub req.pathname "/audio/" = false →
        strHasSub req.url ".html" = true →
        cache.lookup "/index.html" = some idx →
        swFetch req cache none putOk = (FetchOutcome.respond idx, cache, 1))
    ∧ (∀ (req : SWRequest) (cache : List (String × SWResponse))
        (putOk : Bool),
        req.method = "GET" →
        strLeads req.url "chrome-extension:" = false →
        strLeads req.url "safari-extension:" = false →
        cache.lookup req.url = none →
        strHasSub req.pathname "/audio/" = false →
        strHasSub req.url ".html" = false →
        swFetch req cache none putOk =
          (FetchOutcome.respond response408, cache, 1)) := by
  refine ⟨?_, ?_, ?_, ?_, ?_, ?_, ?_, ?_⟩
  · intro req cache network putOk hm
    simp [swFetch, hm]
  · intro req cache network putOk hm hext
    rcases hext with h | h <;> simp [swFetch, hm, h]
  · intro req cache network putOk r hm h1 h2 hurl
    simp [swFetch, hm, h1, h2, hurl]
  · intro req cache network putOk r hm h1 h2 hurl haud hpath
    simp [swFetch, hm, h1, h2, hurl, haud, hpath]
  · intro req cache resp putOk hm h1 h2 hurl haud
    rcases haud with haud | haud
    · by_cases hok : resp.status = 200 ∧ resp.rtype = "basic"
      · cases putOk <;>
          simp [swFetch, hm, h1, h2, hurl, haud, hok, hok.1, hok.2]
      · have hok' : ¬(resp.status = 200 ∧ resp.rtype = "basic" ∧
            putOk = true) := fun hc => hok ⟨hc.1, hc.2.1⟩
        simp [swFetch, hm, h1, h2, hurl, haud, hok, hok']
    · by_cases haudio : strHasSub req.pathname "/audio/" = true
      · by_cases hok : resp.status = 200 ∧ resp.rtype = "basic"
        · cases putOk <;>
            simp [swFetch, hm, h1, h2, hurl, haud, haudio, hok, hok.1, hok.2]
        · have hok' : ¬(resp.status = 200 ∧ resp.rtype = "basic" ∧
              putOk = true) := fun hc => hok ⟨hc.1, hc.2.1⟩
          simp [swFetch, hm, h1, h2, hurl, haud, haudio, hok, hok']
      · have haudio' : strHasSub req.pathname "/audio/" = false := by
          rcases Bool.eq_false_or_eq_true (strHasSub req.pathname "/audio/")
            with h | h
          · exact absurd h haudio
          · exact h
        by_cases hok : resp.status = 200 ∧ resp.rtype = "basic"
        · cases putOk <;>
            simp [swFetch, hm, h1, h2, hurl, haudio', hok, hok.1, hok.2]
        · have hok' : ¬(resp.status = 200 ∧ resp.rtype = "basic" ∧
              putOk = true) := fun hc => hok ⟨hc.1, hc.2.1⟩
          simp [swFetch, hm, h1, h2, hurl, haudio', hok, hok']
  · intro req cache putOk hm h1 h2 hurl haud hpath
    simp [swFetch, hm, h1, h2, hurl, haud, hpath]
  · intro req cache putOk idx hm h1 h2 hurl haud hhtml hidx
    simp [swFetch, hm, h1, h2, hurl, haud, hhtml, hidx]
  · intro req cache putOk hm h1 h2 hurl haud hhtml
    simp [swFetch, hm, h1, h2, hurl, haud, hhtml]

theorem C7_cache_first_amended_witness :
    swFetch ⟨"GET", "/index.html", "/index.html"⟩ c7Cache none true =
      (FetchOutcome.respond c7IndexResponse, c7Cache, 0) ∧
    swFetch c7Req c7Cache none true =
      (FetchOutcome.respond response408, c7Cache, 1) ∧
    swFetch ⟨"GET", "https://example.com/about.html", "/about.html"⟩
        c7Cache none true =
      (FetchOutcome.respond c7IndexResponse, c7Cache, 1) :=
  ⟨C7_cache_first_amended.2.2.1 ⟨"GET", "/index.html", "/index.html"⟩
      c7Cache none true c7IndexResponse rfl rfl rfl rfl,
   C7_cache_first_amended.2.2.2.2.2.1 c7Req c7Cache true
      rfl rfl rfl rfl rfl rfl,
   C7_cache_first_amended.2.2.2.2.2.2.1
      ⟨"GET", "https://example.com/about.html", "/about.html"⟩
      c7Cache true c7IndexResponse rfl rfl rfl rfl rfl rfl rfl⟩
